import Mathlib

/-!
Shallow embedding of the go-libipfs delegated-routing HTTP client core:
the lazy iterators (routing/http/types/iter), the schema-dispatching
NDJSON decoder (routing/http/types/ndjson), and the routing client
(routing/http/client).  External collaborators (encoding/json, mime,
crypto signing, the HTTP transport) are modelled as inputs: their
outcomes are parameters of the embedded functions.
-/

namespace Libipfs

/-- Result triple of a Go iterator Next() call: (value, hasMore, error).
`val = none` models Go's zero value (nil for interface and pointer types). -/
structure NextOut (T E : Type) where
  val : Option T
  more : Bool
  err : Option E
deriving DecidableEq, Repr

/-- Errors a JSONIter.Next can return: the context's error (cancellation) or a
wrapped json decode error ("json iterator: ..."). -/
inductive JErr where
  | ctxErr
  | decodeErr
deriving DecidableEq, Repr

/-- State of iter.JSONIter: the remaining Decoder.Decode outcomes of the byte
stream (`some v` = a decoded value, `none` = a json decode failure, end of the
list = io.EOF), whether the Reader is an io.Closer, the `done` flag, and how
many times closer.Close() has run on the Reader. -/
structure JSONIter (T : Type) where
  stream : List (Option T)
  closable : Bool
  done : Bool
  closeCount : Nat
deriving DecidableEq, Repr

/-- JSONIter.close: sets done and closes the reader if it is a closer. -/
def JSONIter.close {T : Type} (j : JSONIter T) : JSONIter T :=
  { j with done := true
           closeCount := j.closeCount + (if j.closable then 1 else 0) }

/-- JSONIter.Next.  `ctxCancelled` models whether j.ctx.Err() is non-nil at the
time of this call. -/
def JSONIter.Next {T : Type} (j : JSONIter T) (ctxCancelled : Bool) :
    NextOut T JErr × JSONIter T :=
  if j.done then (⟨none, false, none⟩, j)
  else if ctxCancelled then (⟨none, true, some JErr.ctxErr⟩, j.close)
  else
    match j.stream with
    | [] => (⟨none, false, none⟩, j.close)
    | none :: rest => (⟨none, true, some JErr.decodeErr⟩, ({ j with stream := rest }).close)
    | some v :: rest => (⟨some v, true, none⟩, { j with stream := rest })

/-- FromReaderJSON: a fresh JSONIter over a reader whose sequence of decode
outcomes is `stream`; `closable` records whether the reader is an io.Closer. -/
def FromReaderJSON {T : Type} (closable : Bool) (stream : List (Option T)) : JSONIter T :=
  { stream := stream, closable := closable, done := false, closeCount := 0 }

/-- Runs a sequence of Next calls, one context-cancellation flag per call,
discarding the outputs and keeping the final iterator state. -/
def JSONIter.run {T : Type} (flags : List Bool) (j : JSONIter T) : JSONIter T :=
  match flags with
  | [] => j
  | f :: fs => JSONIter.run fs (j.Next f).2

/-- State of iter.SliceIter: the slice and the cursor.  The mutex only guards
concurrent access and has no sequential behaviour. -/
structure SliceIter (T : Type) where
  slice : List T
  i : Nat
deriving DecidableEq, Repr

/-- FromSlice returns an iterator over the given slice. -/
def FromSlice {T : Type} (s : List T) : SliceIter T :=
  { slice := s, i := 0 }

/-- SliceIter.Next. -/
def SliceIter.Next {T : Type} (s : SliceIter T) : NextOut T JErr × SliceIter T :=
  if h : s.i < s.slice.length then
    (⟨some (s.slice.get ⟨s.i, h⟩), true, none⟩, { s with i := s.i + 1 })
  else (⟨none, false, none⟩, s)

/-- Modelled from the spec: the bitswap schema discriminator string
(types.SchemaBitswap lives in the types package, which is outside src/;
the spec names the known schema "bitswap/transport"). -/
def SchemaBitswap : String := "bitswap/transport"

/-- types.UnknownProviderRecord (shape per the spec's Envelope: the types
package is outside src/): the schema discriminator and the raw payload bytes. -/
structure UnknownProviderRecord where
  Schema : String
  Bytes : List Nat
deriving DecidableEq, Repr

/-- Modelled from the spec: serializing the fallback (unknown) record emits its
raw payload bytes verbatim (the types package's MarshalJSON is outside src/;
the spec requires that re-serializing the fallback reproduces the bytes). -/
def UnknownProviderRecord.marshalJSON (r : UnknownProviderRecord) : List Nat :=
  r.Bytes

/-- types.ProviderResponse as produced by the reading dispatcher: either the
concrete bitswap variant (of decoded type B) or the unknown-record fallback. -/
inductive ProviderResponse (B : Type) where
  | bitswap (r : B)
  | unknown (r : UnknownProviderRecord)
deriving DecidableEq, Repr

/-- Errors of the dispatching iterator: an inner JSONIter error propagated
unchanged, or a json.Unmarshal failure on a known-schema payload. -/
inductive DErr where
  | inner (e : JErr)
  | unmarshalErr
deriving DecidableEq, Repr

/-- ndjson.readProvidersResponseIter: wraps the envelope stream iterator. -/
structure readProvidersResponseIter where
  iter : JSONIter UnknownProviderRecord
deriving DecidableEq, Repr

/-- ndjson.NewReadProvidersResponseIter over a reader (an HTTP response body is
an io.Closer, so FindProviders constructs it with closable = true). -/
def NewReadProvidersResponseIter (closable : Bool)
    (stream : List (Option UnknownProviderRecord)) : readProvidersResponseIter :=
  ⟨FromReaderJSON closable stream⟩

/-- readProvidersResponseIter.Next.  `unmarshal` models json.Unmarshal into
types.ReadBitswapProviderRecord (decoded type B); `none` is an Unmarshal error.
`ctxCancelled` is passed through to the inner JSONIter.Next call. -/
def readProvidersResponseIter.Next {B : Type} (p : readProvidersResponseIter)
    (unmarshal : List Nat → Option B) (ctxCancelled : Bool) :
    NextOut (ProviderResponse B) DErr × readProvidersResponseIter :=
  match p.iter.Next ctxCancelled with
  | (o, inner) =>
    let p2 : readProvidersResponseIter := ⟨inner⟩
    if o.more = false then (⟨none, false, none⟩, p2)
    else
      match o.err with
      | some e => (⟨none, false, some (DErr.inner e)⟩, p2)
      | none =>
        let v := o.val.getD ⟨"", []⟩
        if v.Schema = SchemaBitswap then
          match unmarshal v.Bytes with
          | none => (⟨none, false, some DErr.unmarshalErr⟩, p2)
          | some b => (⟨some (ProviderResponse.bitswap b), true, none⟩, p2)
        else (⟨some (ProviderResponse.unknown v), true, none⟩, p2)

/-- mediaTypeJSON constant of the client package. -/
def mediaTypeJSON : String := "application/json"

/-- mediaTypeNDJSON constant of the client package. -/
def mediaTypeNDJSON : String := "application/x-ndjson"

/-- Model of the http.Response FindProviders receives from httpClient.Do:
status code, the media type parsed from Content-Type (`none` models a
mime.ParseMediaType failure), the batch-JSON decode of the body (the providers
decoded plus whether decoding failed), and the body as a stream of NDJSON
envelope decode outcomes.  The stdlib decoders are external collaborators, so
their outcomes are inputs of the model. -/
structure FPResponse (B : Type) where
  statusCode : Nat
  mediaType : Option String
  jsonProviders : List (ProviderResponse B)
  jsonDecodeFailed : Bool
  ndStream : List (Option UnknownProviderRecord)
deriving DecidableEq, Repr

/-- What client.FindProviders returns: `noIter` is the 404 path `return nil,
nil` (a nil iterator, no error); `batch` is the JSON path, which returns the
slice iterator together with the body decode error if any; `stream` is the
NDJSON path. -/
inductive FPOutcome (B : Type) where
  | transportErr
  | noIter
  | httpErr (status : Nat)
  | contentTypeErr
  | unknownContentType
  | batch (it : SliceIter (ProviderResponse B)) (decodeFailed : Bool)
  | stream (it : readProvidersResponseIter)
deriving DecidableEq, Repr

/-- True when the outcome carries an iterator value the caller can pull on. -/
def FPOutcome.returnsIterator {B : Type} : FPOutcome B → Bool
  | FPOutcome.batch _ _ => true
  | FPOutcome.stream _ => true
  | _ => false

/-- True when the outcome is one of the branches reached after FindProviders
starts inspecting the response Content-Type. -/
def FPOutcome.inspectsContentType {B : Type} : FPOutcome B → Bool
  | FPOutcome.contentTypeErr => true
  | FPOutcome.unknownContentType => true
  | FPOutcome.batch _ _ => true
  | FPOutcome.stream _ => true
  | _ => false

/-- client.FindProviders, from the point where httpClient.Do returns
(`resp = none` models a transport error).  Mirrors the source's branch order:
404 first, then any status other than 200, then Content-Type parsing, then the
media-type switch. -/
def FindProviders {B : Type} (resp : Option (FPResponse B)) : FPOutcome B :=
  match resp with
  | none => FPOutcome.transportErr
  | some r =>
    if r.statusCode = 404 then FPOutcome.noIter
    else if r.statusCode ≠ 200 then FPOutcome.httpErr r.statusCode
    else
      match r.mediaType with
      | none => FPOutcome.contentTypeErr
      | some mt =>
        if mt = mediaTypeJSON then
          FPOutcome.batch (FromSlice r.jsonProviders) r.jsonDecodeFailed
        else if mt = mediaTypeNDJSON then
          FPOutcome.stream (NewReadProvidersResponseIter true r.ndStream)
        else FPOutcome.unknownContentType

/-- types.BitswapPayload of the write record (CIDs, TTL, timestamp and peer id
are opaque to the client logic and modelled by Nat/Int/String). -/
structure BitswapPayload where
  Keys : List Nat
  AdvisoryTTL : Option Int
  Timestamp : Option Int
  ID : Option String
  Addrs : List String
deriving DecidableEq, Repr

/-- types.WriteBitswapProviderRecord: the signable provide request record. -/
structure WriteBitswapProviderRecord where
  Protocol : String
  Schema : String
  Payload : BitswapPayload
  Signature : Option String
deriving DecidableEq, Repr

/-- One decoded element of WriteProvidersResponse.ProvideResults: either the
bitswap response variant carrying an optional advisory TTL, or some other
variant (the type assertion to *WriteBitswapProviderRecordResponse fails). -/
inductive WriteProviderResult where
  | bitswap (advisoryTTL : Option Int)
  | other
deriving DecidableEq, Repr

/-- Errors of the provide path. -/
inductive ProvideErr where
  | noIdentity
  | noPeerID
  | signFailure
  | transportErr
  | httpErr (status : Nat)
  | bodyDecodeErr
  | cardinality (n : Nat)
  | notBitswapVariant
deriving DecidableEq, Repr

/-- Model of the http.Response of the provide POST: status code and the decoded
ProvideResults list (`none` models a body JSON decode error). -/
structure ProvideHttpResponse where
  statusCode : Nat
  decodedResults : Option (List WriteProviderResult)
deriving DecidableEq, Repr

/-- client.provideSignedBitswapRecord, from the point where the request body
has been marshalled (deterministic marshalling of this concrete record type
does not fail).  The second component counts httpClient.Do calls made.
`resp = none` models a transport error. -/
def provideSignedBitswapRecord (resp : Option ProvideHttpResponse) :
    Except ProvideErr Int × Nat :=
  match resp with
  | none => (Except.error ProvideErr.transportErr, 1)
  | some r =>
    if r.statusCode ≠ 200 then (Except.error (ProvideErr.httpErr r.statusCode), 1)
    else
      match r.decodedResults with
      | none => (Except.error ProvideErr.bodyDecodeErr, 1)
      | some results =>
        match results with
        | [WriteProviderResult.bitswap advisoryTTL] =>
          (Except.ok (advisoryTTL.getD 0), 1)
        | [WriteProviderResult.other] =>
          (Except.error ProvideErr.notBitswapVariant, 1)
        | _ => (Except.error (ProvideErr.cardinality results.length), 1)

/-- The client fields the provide and construction paths read: the optional
signing identity (opaque private key), the peer id (a string; Size() is its
length) and the advertised addresses. -/
structure ClientCfg where
  baseURL : String
  identity : Option Nat
  peerID : String
  addrs : List String
deriving DecidableEq, Repr

/-- client.ProvideBitswap.  `sign` models types.WriteBitswapProviderRecord.Sign
(external crypto; `none` is a signing error); `resp` models the outcome of the
POST performed by provideSignedBitswapRecord.  The second component counts
httpClient.Do calls made. -/
def ProvideBitswap (sign : WriteBitswapProviderRecord → Option WriteBitswapProviderRecord)
    (c : ClientCfg) (keys : List Nat) (ttl : Int) (now : Int)
    (resp : Option ProvideHttpResponse) : Except ProvideErr Int × Nat :=
  match c.identity with
  | none => (Except.error ProvideErr.noIdentity, 0)
  | some _ =>
    if c.peerID.length = 0 then (Except.error ProvideErr.noPeerID, 0)
    else
      let req : WriteBitswapProviderRecord :=
        { Protocol := "transport-bitswap"
          Schema := SchemaBitswap
          Payload := { Keys := keys, AdvisoryTTL := some ttl, Timestamp := some now,
                       ID := some c.peerID, Addrs := c.addrs }
          Signature := none }
      match sign req with
      | none => (Except.error ProvideErr.signFailure, 0)
      | some _ => provideSignedBitswapRecord resp

/-- client.New, after the options have populated identity and peerID.
`matchesKey` models peer.ID.MatchesPublicKey applied to identity.GetPublic()
(external crypto). -/
def New (matchesKey : String → Nat → Bool) (baseURL : String) (identity : Option Nat)
    (peerID : String) (addrs : List String) : Except String ClientCfg :=
  let c : ClientCfg := { baseURL := baseURL, identity := identity,
                         peerID := peerID, addrs := addrs }
  match c.identity with
  | some key =>
    if c.peerID.length != 0 && !(matchesKey c.peerID key) then
      Except.error "identity does not match provider"
    else Except.ok c
  | none => Except.ok c

/-! ## Helper lemmas shared by the claim theorems -/

/-- A done JSONIter answers (zero, false, nil) and does not change. -/
theorem JSONIter.Next_done {T : Type} (j : JSONIter T) (ctx : Bool) (h : j.done = true) :
    j.Next ctx = (⟨none, false, none⟩, j) := by
  simp [JSONIter.Next, h]

/-- From a live state, a terminal outcome (exhaustion or error) comes with a
close: the post state is done and the reader was closed once more if closable. -/
theorem JSONIter.Next_terminal {T : Type} (j : JSONIter T) (ctx : Bool)
    (hd : j.done = false)
    (ht : (j.Next ctx).1.more = false ∨ (j.Next ctx).1.err ≠ none) :
    (j.Next ctx).2.done = true ∧
    (j.Next ctx).2.closeCount = j.closeCount + (if j.closable then 1 else 0) := by
  cases ctx
  · rcases hs : j.stream with _ | ⟨x | v, rest⟩ <;>
      simp [JSONIter.Next, JSONIter.close, hd, hs] at ht ⊢
  · simp [JSONIter.Next, JSONIter.close, hd]

/-- The close-at-most-once invariant is preserved by one Next call. -/
theorem JSONIter.Next_closeInv {T : Type} (j : JSONIter T) (ctx : Bool)
    (h1 : j.done = false → j.closeCount = 0) (h2 : j.closeCount ≤ 1) :
    ((j.Next ctx).2.done = false → (j.Next ctx).2.closeCount = 0) ∧
    (j.Next ctx).2.closeCount ≤ 1 := by
  cases hd : j.done
  · have h0 : j.closeCount = 0 := h1 hd
    cases ctx
    · rcases hs : j.stream with _ | ⟨x | v, rest⟩ <;>
        simp [JSONIter.Next, JSONIter.close, hd, hs, h0] <;> split <;> simp
    · simp [JSONIter.Next, JSONIter.close, hd, h0]
      split <;> simp
  · rw [JSONIter.Next_done j ctx hd]
    exact ⟨h1, h2⟩

/-- Over any run of Next calls, the close-at-most-once invariant holds. -/
theorem JSONIter.run_closeCount_le {T : Type} (flags : List Bool) (j : JSONIter T)
    (h1 : j.done = false → j.closeCount = 0) (h2 : j.closeCount ≤ 1) :
    (JSONIter.run flags j).closeCount ≤ 1 := by
  induction flags generalizing j with
  | nil => exact h2
  | cons f fs ih =>
    have step := JSONIter.Next_closeInv j f h1 h2
    exact ih _ step.1 step.2

/-- JSONIter.Next never pairs a non-nil error with hasMore = false. -/
theorem JSONIter.Next_err_more {T : Type} (j : JSONIter T) (ctx : Bool)
    (h : (j.Next ctx).1.err ≠ none) : (j.Next ctx).1.more = true := by
  cases hd : j.done
  · cases ctx
    · rcases hs : j.stream with _ | ⟨x | v, rest⟩ <;>
        simp [JSONIter.Next, hd, hs] at h ⊢
    · simp [JSONIter.Next, hd]
  · simp [JSONIter.Next, hd] at h

/-- The dispatcher maps an inner hasMore = false to clean exhaustion. -/
theorem readProvidersResponseIter.Next_exhausted {B : Type}
    (p : readProvidersResponseIter) (unm : List Nat → Option B) (ctx : Bool)
    (h : (p.iter.Next ctx).1.more = false) :
    (p.Next unm ctx).1 = ((⟨none, false, none⟩ : NextOut (ProviderResponse B) DErr)) := by
  rcases hn : p.iter.Next ctx with ⟨o, inner⟩
  rw [hn] at h
  simp only at h
  simp [readProvidersResponseIter.Next, hn, h]

/-- The dispatcher propagates an inner error that comes with hasMore = true. -/
theorem readProvidersResponseIter.Next_innerErr {B : Type}
    (p : readProvidersResponseIter) (unm : List Nat → Option B) (ctx : Bool) (e : JErr)
    (h1 : (p.iter.Next ctx).1.more = true) (h2 : (p.iter.Next ctx).1.err = some e) :
    (p.Next unm ctx).1 = ((⟨none, false, some (DErr.inner e)⟩ : NextOut (ProviderResponse B) DErr)) := by
  rcases hn : p.iter.Next ctx with ⟨o, inner⟩
  rw [hn] at h1 h2
  simp only at h1 h2
  simp [readProvidersResponseIter.Next, hn, h1, h2]

/-! ## Concrete data for the counterexamples -/

/-- An envelope with the known bitswap schema whose payload the bitswap
unmarshaller rejects. -/
def badBitswapEnv : UnknownProviderRecord := ⟨SchemaBitswap, [7]⟩

/-- An envelope with an unknown schema. -/
def otherEnv : UnknownProviderRecord := ⟨"other-schema", [9]⟩

/-- An unmarshaller that fails on every payload. -/
def failUnmarshal : List Nat → Option Nat := fun _ => none

/-! ## Claim theorems -/

/-- C1 counterexample: the schema-dispatching decoder, pulling an envelope of
the known bitswap schema whose raw payload is malformed, exits with a terminal
error yet leaves the underlying stream open and unclosed (closeCount stays 0,
the inner iterator is not done), contradicting the claim that every terminal
exit path closes the underlying stream. -/
theorem dispatcher_unmarshal_error_leaves_stream_open :
    ((NewReadProvidersResponseIter true [some badBitswapEnv]).Next failUnmarshal false).1.err
        = some DErr.unmarshalErr ∧
    ((NewReadProvidersResponseIter true [some badBitswapEnv]).Next failUnmarshal false).1.more
        = false ∧
    ((NewReadProvidersResponseIter true [some badBitswapEnv]).Next failUnmarshal false).2.iter.closeCount
        = 0 ∧
    ((NewReadProvidersResponseIter true [some badBitswapEnv]).Next failUnmarshal false).2.iter.done
        = false :=
  ⟨rfl, rfl, rfl, rfl⟩

/-- C1 (amended): for the stream-backed iterator itself, on every terminal exit
path — clean end-of-stream, envelope decode error, and observed cancellation —
the underlying stream is closed, and across any sequence of Next() calls the
close happens at most once; the schema-dispatching decoder's unmarshal error on
a known-schema payload, however, is a terminal error that does not close the
stream. -/
theorem jsoniter_terminal_closes_once (T : Type) :
    (∀ (j : JSONIter T) (ctx : Bool), j.done = false →
       ((j.Next ctx).1.more = false ∨ (j.Next ctx).1.err ≠ none) →
       (j.Next ctx).2.done = true ∧
       (j.Next ctx).2.closeCount = j.closeCount + (if j.closable then 1 else 0)) ∧
    (∀ (flags : List Bool) (j : JSONIter T), j.done = false → j.closeCount = 0 →
       (JSONIter.run flags j).closeCount ≤ 1) := by
  constructor
  · exact fun j ctx hd ht => JSONIter.Next_terminal j ctx hd ht
  · intro flags j hd hc
    exact JSONIter.run_closeCount_le flags j (fun _ => hc) (by simp [hc])

/-- C1 witness: closing at EOF on a concrete closable iterator, and a bound of
one close over a concrete three-call run. -/
theorem jsoniter_terminal_closes_once_witness :
    ((FromReaderJSON true ([] : List (Option Nat))).Next false).2.closeCount
        = 0 + (if true then 1 else 0) ∧
    (JSONIter.run [false, true, false] (FromReaderJSON true ([some 3, none] : List (Option Nat)))).closeCount ≤ 1 :=
  ⟨((jsoniter_terminal_closes_once Nat).1 (FromReaderJSON true []) false rfl (Or.inl rfl)).2,
   (jsoniter_terminal_closes_once Nat).2 [false, true, false] (FromReaderJSON true [some 3, none]) rfl rfl⟩

/-- C5: for the stream iterator, the cancellation signal is checked before each
decode attempt: from any live state, if cancellation is observed at the time of
the call, Next returns the context error as a terminal error, closes the
stream, and consumes nothing from it. -/
theorem jsoniter_cancellation_before_decode {T : Type} (j : JSONIter T)
    (h : j.done = false) :
    j.Next true = (⟨none, true, some JErr.ctxErr⟩, j.close) ∧
    (j.Next true).2.stream = j.stream ∧
    (j.Next true).2.done = true ∧
    (j.Next true).2.closeCount = j.closeCount + (if j.closable then 1 else 0) := by
  refine ⟨by simp [JSONIter.Next, h], ?_, ?_, ?_⟩ <;>
    simp [JSONIter.Next, JSONIter.close, h]

/-- C5 witness: a concrete live iterator with pending stream data, cancelled. -/
theorem jsoniter_cancellation_before_decode_witness :
    ((FromReaderJSON true ([some 9, some 8] : List (Option Nat))).Next true).2.stream
      = [some 9, some 8] :=
  (jsoniter_cancellation_before_decode (FromReaderJSON true [some 9, some 8]) rfl).2.1

/-- C2 counterexample: after the schema-dispatching iterator returns a terminal
error (a malformed known-schema payload), the very next call to Next returns a
further element, (some value, true, nil), instead of (zero, false, nil). -/
theorem dispatcher_not_idempotent_after_unmarshal_error :
    ((NewReadProvidersResponseIter true [some badBitswapEnv, some otherEnv]).Next failUnmarshal false).1.err
        = some DErr.unmarshalErr ∧
    (((NewReadProvidersResponseIter true [some badBitswapEnv, some otherEnv]).Next failUnmarshal false).2.Next failUnmarshal false).1
        = ⟨some (ProviderResponse.unknown otherEnv), true, none⟩ :=
  ⟨rfl, rfl⟩

/-- C2 (amended): the post-terminal contract holds for the sequence iterator,
for the stream iterator, and for the schema-dispatching iterator after any
terminal outcome that originated in the inner stream iterator (whose state is
then done); after a terminal unmarshal error on a known-schema payload,
however, the schema-dispatching iterator's stream is still live and subsequent
calls can return further elements. -/
theorem iterators_post_terminal_idempotent (T B : Type) :
    (∀ s : SliceIter T, (s.Next).1.more = false →
       (s.Next).2.Next = ((⟨none, false, none⟩ : NextOut T JErr), (s.Next).2)) ∧
    (∀ (j : JSONIter T) (ctx ctx2 : Bool),
       ((j.Next ctx).1.more = false ∨ (j.Next ctx).1.err ≠ none) →
       (j.Next ctx).2.Next ctx2 = ((⟨none, false, none⟩ : NextOut T JErr), (j.Next ctx).2)) ∧
    (∀ (p : readProvidersResponseIter) (unm : List Nat → Option B) (ctx : Bool),
       p.iter.done = true →
       p.Next unm ctx = ((⟨none, false, none⟩ : NextOut (ProviderResponse B) DErr), p)) := by
  refine ⟨?_, ?_, ?_⟩
  · intro s h
    by_cases hi : s.i < s.slice.length
    · simp [SliceIter.Next, hi] at h
    · simp [SliceIter.Next, hi]
  · intro j ctx ctx2 ht
    cases hd : j.done
    · exact JSONIter.Next_done _ ctx2 (JSONIter.Next_terminal j ctx hd ht).1
    · rw [JSONIter.Next_done j ctx hd]
      exact JSONIter.Next_done j ctx2 hd
  · intro p unm ctx h
    simp [readProvidersResponseIter.Next, JSONIter.Next_done p.iter ctx h]

/-- C2 witness: a concrete slice iterator past its end, a concrete stream
iterator after EOF, and a concrete dispatcher over a done inner iterator. -/
theorem iterators_post_terminal_idempotent_witness :
    ((FromSlice ([] : List Nat)).Next).2.Next
        = ((⟨none, false, none⟩ : NextOut Nat JErr), ((FromSlice ([] : List Nat)).Next).2) ∧
    (((FromReaderJSON false ([] : List (Option Nat))).Next false).2.Next false)
        = ((⟨none, false, none⟩ : NextOut Nat JErr), ((FromReaderJSON false ([] : List (Option Nat))).Next false).2) ∧
    (readProvidersResponseIter.mk ⟨[], true, true, 1⟩).Next failUnmarshal false
        = ((⟨none, false, none⟩ : NextOut (ProviderResponse Nat) DErr), readProvidersResponseIter.mk ⟨[], true, true, 1⟩) :=
  ⟨(iterators_post_terminal_idempotent Nat Nat).1 (FromSlice []) rfl,
   (iterators_post_terminal_idempotent Nat Nat).2.1 (FromReaderJSON false []) false false (Or.inl rfl),
   (iterators_post_terminal_idempotent Nat Nat).2.2 (readProvidersResponseIter.mk ⟨[], true, true, 1⟩) failUnmarshal false rfl⟩

/-- C9: whenever JSONIter.Next returns a non-nil error it returns hasMore =
true alongside it; the dispatching iterator maps hasMore = false to clean
exhaustion and an inner error with hasMore = true to a propagated error, so an
inner error is never converted into exhaustion. -/
theorem jsoniter_error_has_more (T B : Type) :
    (∀ (j : JSONIter T) (ctx : Bool),
       (j.Next ctx).1.err ≠ none → (j.Next ctx).1.more = true) ∧
    (∀ (p : readProvidersResponseIter) (unm : List Nat → Option B) (ctx : Bool),
       (p.iter.Next ctx).1.more = false →
       (p.Next unm ctx).1 = ⟨none, false, none⟩) ∧
    (∀ (p : readProvidersResponseIter) (unm : List Nat → Option B) (ctx : Bool) (e : JErr),
       (p.iter.Next ctx).1.more = true → (p.iter.Next ctx).1.err = some e →
       (p.Next unm ctx).1 = ⟨none, false, some (DErr.inner e)⟩) ∧
    (∀ (p : readProvidersResponseIter) (unm : List Nat → Option B) (ctx : Bool) (e : JErr),
       (p.iter.Next ctx).1.err = some e →
       (p.Next unm ctx).1.err = some (DErr.inner e)) := by
  refine ⟨fun j ctx h => JSONIter.Next_err_more j ctx h,
          fun p unm ctx h => readProvidersResponseIter.Next_exhausted p unm ctx h,
          fun p unm ctx e h1 h2 => readProvidersResponseIter.Next_innerErr p unm ctx e h1 h2,
          ?_⟩
  intro p unm ctx e h
  have hm : (p.iter.Next ctx).1.more = true :=
    JSONIter.Next_err_more p.iter ctx (by simp [h])
  rw [readProvidersResponseIter.Next_innerErr p unm ctx e hm h]

/-- C9 witness: a concrete cancelled stream iterator and a concrete dispatcher
over an exhausted stream and over a failing stream. -/
theorem jsoniter_error_has_more_witness :
    ((FromReaderJSON true ([some 1] : List (Option Nat))).Next true).1.more = true ∧
    ((NewReadProvidersResponseIter true []).Next failUnmarshal false).1
        = ((⟨none, false, none⟩ : NextOut (ProviderResponse Nat) DErr)) ∧
    ((NewReadProvidersResponseIter true [none]).Next failUnmarshal false).1
        = ((⟨none, false, some (DErr.inner JErr.decodeErr)⟩ : NextOut (ProviderResponse Nat) DErr)) :=
  ⟨(jsoniter_error_has_more Nat Nat).1 (FromReaderJSON true [some 1]) true (by simp [JSONIter.Next, FromReaderJSON]),
   (jsoniter_error_has_more Nat Nat).2.1 (NewReadProvidersResponseIter true []) failUnmarshal false rfl,
   (jsoniter_error_has_more Nat Nat).2.2.1 (NewReadProvidersResponseIter true [none]) failUnmarshal false JErr.decodeErr rfl rfl⟩

/-- C4: schema dispatch — an envelope pulled with the bitswap discriminator is
decoded by the payload unmarshaller into the concrete bitswap variant, a
malformed payload is a terminal error, and any other discriminator yields the
fallback variant carrying the envelope (discriminator and raw payload bytes)
unchanged and is never an error; serializing the fallback reproduces the
original bytes. -/
theorem dispatcher_schema_dispatch (B : Type) :
    (∀ (p : readProvidersResponseIter) (unm : List Nat → Option B) (ctx : Bool)
       (v : UnknownProviderRecord) (b : B),
       (p.iter.Next ctx).1 = ⟨some v, true, none⟩ → v.Schema = SchemaBitswap →
       unm v.Bytes = some b →
       (p.Next unm ctx).1 = ⟨some (ProviderResponse.bitswap b), true, none⟩) ∧
    (∀ (p : readProvidersResponseIter) (unm : List Nat → Option B) (ctx : Bool)
       (v : UnknownProviderRecord),
       (p.iter.Next ctx).1 = ⟨some v, true, none⟩ → v.Schema = SchemaBitswap →
       unm v.Bytes = none →
       (p.Next unm ctx).1 = ⟨none, false, some DErr.unmarshalErr⟩) ∧
    (∀ (p : readProvidersResponseIter) (unm : List Nat → Option B) (ctx : Bool)
       (v : UnknownProviderRecord),
       (p.iter.Next ctx).1 = ⟨some v, true, none⟩ → v.Schema ≠ SchemaBitswap →
       (p.Next unm ctx).1 = ⟨some (ProviderResponse.unknown v), true, none⟩ ∧
       v.marshalJSON = v.Bytes) := by
  refine ⟨?_, ?_, ?_⟩
  · intro p unm ctx v b hn hs hu
    rcases he : p.iter.Next ctx with ⟨o, inner⟩
    rw [he] at hn
    simp [readProvidersResponseIter.Next, he, hn, hs, hu]
  · intro p unm ctx v hn hs hu
    rcases he : p.iter.Next ctx with ⟨o, inner⟩
    rw [he] at hn
    simp [readProvidersResponseIter.Next, he, hn, hs, hu]
  · intro p unm ctx v hn hs
    rcases he : p.iter.Next ctx with ⟨o, inner⟩
    rw [he] at hn
    exact ⟨by simp [readProvidersResponseIter.Next, he, hn, hs], rfl⟩

/-- C4 witness: a concrete bitswap envelope decoded by a concrete unmarshaller,
a concrete malformed bitswap envelope, and a concrete unknown-schema
envelope. -/
theorem dispatcher_schema_dispatch_witness :
    ((NewReadProvidersResponseIter true [some badBitswapEnv]).Next (fun bs => some bs.length) false).1
        = ⟨some (ProviderResponse.bitswap 1), true, none⟩ ∧
    ((NewReadProvidersResponseIter true [some badBitswapEnv]).Next failUnmarshal false).1
        = ⟨none, false, some DErr.unmarshalErr⟩ ∧
    ((NewReadProvidersResponseIter true [some otherEnv]).Next failUnmarshal false).1
        = ⟨some (ProviderResponse.unknown otherEnv), true, none⟩ ∧
    otherEnv.marshalJSON = otherEnv.Bytes :=
  ⟨(dispatcher_schema_dispatch Nat).1 (NewReadProvidersResponseIter true [some badBitswapEnv])
      (fun bs => some bs.length) false badBitswapEnv 1 rfl rfl rfl,
   (dispatcher_schema_dispatch Nat).2.1 (NewReadProvidersResponseIter true [some badBitswapEnv])
      failUnmarshal false badBitswapEnv rfl rfl rfl,
   ((dispatcher_schema_dispatch Nat).2.2 (NewReadProvidersResponseIter true [some otherEnv])
      failUnmarshal false otherEnv rfl (by decide)).1,
   ((dispatcher_schema_dispatch Nat).2.2 (NewReadProvidersResponseIter true [some otherEnv])
      failUnmarshal false otherEnv rfl (by decide)).2⟩

/-- A concrete 404 response for FindProviders. -/
def resp404 : FPResponse Nat :=
  { statusCode := 404, mediaType := some mediaTypeNDJSON, jsonProviders := [],
    jsonDecodeFailed := false, ndStream := [some otherEnv] }

/-- A concrete 201 response for FindProviders with a well-formed content type. -/
def resp201 : FPResponse Nat :=
  { statusCode := 201, mediaType := some mediaTypeNDJSON, jsonProviders := [],
    jsonDecodeFailed := false, ndStream := [] }

/-- C3 counterexample: on a concrete 404 response, FindProviders returns no
error but also no iterator value at all (the source returns `nil, nil`), so
there is no iterator on which Next could report exhaustion. -/
theorem findProviders_404_returns_nil_iterator :
    FindProviders (some resp404) = FPOutcome.noIter ∧
    FPOutcome.returnsIterator (FindProviders (some resp404)) = false :=
  ⟨rfl, rfl⟩

/-- C3 (amended): for every HTTP 404 response, FindProviders returns no error
and a nil iterator — the empty result is the absence of an iterator value, not
an iterator that exhausts. -/
theorem findProviders_404_empty (B : Type) (r : FPResponse B)
    (h : r.statusCode = 404) :
    FindProviders (some r) = FPOutcome.noIter := by
  simp [FindProviders, h]

/-- C3 witness: a concrete 404 response with an unparseable content type. -/
theorem findProviders_404_empty_witness :
    FindProviders (some (⟨404, none, [], true, []⟩ : FPResponse Nat)) = FPOutcome.noIter :=
  findProviders_404_empty Nat ⟨404, none, [], true, []⟩ rfl

/-- C7 counterexample: a 201 response — a 2xx status — is answered with an
error carrying the status code, and the client never reaches content-type
inspection, contradicting the claim that every 2xx status proceeds to inspect
the content type. -/
theorem findProviders_201_is_error :
    FindProviders (some resp201) = FPOutcome.httpErr 201 ∧
    FPOutcome.inspectsContentType (FindProviders (some resp201)) = false ∧
    200 ≤ 201 ∧ 201 < 300 :=
  ⟨rfl, rfl, by decide, by decide⟩

/-- C7 (amended): FindProviders proceeds to inspect the response content type
exactly for status 200; an error carrying the status code is returned for
every status other than 200 and 404. -/
theorem findProviders_status_dispatch (B : Type) :
    (∀ r : FPResponse B, r.statusCode = 200 →
       FPOutcome.inspectsContentType (FindProviders (some r)) = true) ∧
    (∀ r : FPResponse B, r.statusCode ≠ 200 → r.statusCode ≠ 404 →
       FindProviders (some r) = FPOutcome.httpErr r.statusCode) := by
  constructor
  · intro r h
    simp only [FindProviders, h]
    norm_num
    rcases r.mediaType with _ | mt
    · simp [FPOutcome.inspectsContentType]
    · by_cases h1 : mt = mediaTypeJSON
      · simp [h1, FPOutcome.inspectsContentType]
      · by_cases h2 : mt = mediaTypeNDJSON
        · subst h2
          simp [h1, FPOutcome.inspectsContentType]
        · simp [h1, h2, FPOutcome.inspectsContentType]
  · intro r h1 h2
    simp [FindProviders, h1, h2]

/-- C7 witness: a concrete 200 NDJSON response and a concrete 500 response. -/
theorem findProviders_status_dispatch_witness :
    FPOutcome.inspectsContentType
        (FindProviders (some (⟨200, some mediaTypeNDJSON, [], false, []⟩ : FPResponse Nat))) = true ∧
    FindProviders (some (⟨500, some mediaTypeNDJSON, [], false, []⟩ : FPResponse Nat))
        = FPOutcome.httpErr 500 :=
  ⟨(findProviders_status_dispatch Nat).1 ⟨200, some mediaTypeNDJSON, [], false, []⟩ rfl,
   (findProviders_status_dispatch Nat).2 ⟨500, some mediaTypeNDJSON, [], false, []⟩
      (by decide) (by decide)⟩

/-- C6: on a successful provide response, a decoded result count other than one
is the cardinality error carrying that count; a single non-bitswap result is
the variant-mismatch error; a single bitswap result yields its advisory TTL,
with an absent TTL mapping to the zero duration and no error. -/
theorem provideSigned_unwraps_single_result :
    (∀ results : List WriteProviderResult, results.length ≠ 1 →
       provideSignedBitswapRecord (some ⟨200, some results⟩) =
         (Except.error (ProvideErr.cardinality results.length), 1)) ∧
    (provideSignedBitswapRecord (some ⟨200, some [WriteProviderResult.other]⟩) =
       (Except.error ProvideErr.notBitswapVariant, 1)) ∧
    (∀ d : Int,
       provideSignedBitswapRecord (some ⟨200, some [WriteProviderResult.bitswap (some d)]⟩) =
         (Except.ok d, 1)) ∧
    (provideSignedBitswapRecord (some ⟨200, some [WriteProviderResult.bitswap none]⟩) =
       (Except.ok 0, 1)) := by
  refine ⟨?_, rfl, fun d => rfl, rfl⟩
  intro results h
  rcases results with _ | ⟨a, _ | ⟨b, rest⟩⟩
  · rfl
  · simp at h
  · cases a <;> rfl

/-- C6 witness: zero results and two results fail with the cardinality error. -/
theorem provideSigned_unwraps_single_result_witness :
    provideSignedBitswapRecord (some ⟨200, some []⟩) =
        (Except.error (ProvideErr.cardinality 0), 1) ∧
    provideSignedBitswapRecord
        (some ⟨200, some [WriteProviderResult.other, WriteProviderResult.other]⟩) =
        (Except.error (ProvideErr.cardinality 2), 1) ∧
    provideSignedBitswapRecord (some ⟨200, some [WriteProviderResult.bitswap (some 7)]⟩) =
        (Except.ok 7, 1) :=
  ⟨provideSigned_unwraps_single_result.1 [] (by decide),
   provideSigned_unwraps_single_result.1 [WriteProviderResult.other, WriteProviderResult.other]
      (by decide),
   provideSigned_unwraps_single_result.2.2.1 7⟩

/-- C8: ProvideBitswap fails immediately with a configuration error and makes
zero HTTP calls when the signing identity is missing or the peer id is empty,
whatever the signer and the network would do; and an HTTP call is made only
when both are configured. -/
theorem provideBitswap_preconditions :
    (∀ (sign : WriteBitswapProviderRecord → Option WriteBitswapProviderRecord)
       (c : ClientCfg) (keys : List Nat) (ttl now : Int)
       (resp : Option ProvideHttpResponse), c.identity = none →
       ProvideBitswap sign c keys ttl now resp = (Except.error ProvideErr.noIdentity, 0)) ∧
    (∀ (sign : WriteBitswapProviderRecord → Option WriteBitswapProviderRecord)
       (c : ClientCfg) (keys : List Nat) (ttl now : Int)
       (resp : Option ProvideHttpResponse) (k : Nat),
       c.identity = some k → c.peerID.length = 0 →
       ProvideBitswap sign c keys ttl now resp = (Except.error ProvideErr.noPeerID, 0)) ∧
    (∀ (sign : WriteBitswapProviderRecord → Option WriteBitswapProviderRecord)
       (c : ClientCfg) (keys : List Nat) (ttl now : Int)
       (resp : Option ProvideHttpResponse),
       (ProvideBitswap sign c keys ttl now resp).2 ≠ 0 →
       c.identity ≠ none ∧ c.peerID.length ≠ 0) := by
  refine ⟨?_, ?_, ?_⟩
  · intro sign c keys ttl now resp h
    simp [ProvideBitswap, h]
  · intro sign c keys ttl now resp k h1 h2
    simp [ProvideBitswap, h1, h2]
  · intro sign c keys ttl now resp h
    rcases hi : c.identity with _ | k
    · simp [ProvideBitswap, hi] at h
    · by_cases hp : c.peerID.length = 0
      · simp [ProvideBitswap, hi, hp] at h
      · exact ⟨by simp [hi], hp⟩

/-- C8 witness: a client without identity makes no call, a client with identity
but empty peer id makes no call, and a fully configured client whose POST gets
a 200 response makes a call (so calls > 0 implies both were configured). -/
theorem provideBitswap_preconditions_witness :
    ProvideBitswap some ⟨"u", none, "p", []⟩ [1] 3 5 none
        = (Except.error ProvideErr.noIdentity, 0) ∧
    ProvideBitswap some ⟨"u", some 2, "", []⟩ [1] 3 5 none
        = (Except.error ProvideErr.noPeerID, 0) ∧
    ((⟨"u", some 2, "p", []⟩ : ClientCfg).identity ≠ none ∧
       ("p".length ≠ 0)) :=
  ⟨provideBitswap_preconditions.1 some ⟨"u", none, "p", []⟩ [1] 3 5 none rfl,
   provideBitswap_preconditions.2.1 some ⟨"u", some 2, "", []⟩ [1] 3 5 none 2 rfl rfl,
   provideBitswap_preconditions.2.2 some ⟨"u", some 2, "p", []⟩ [1] 3 5
      (some ⟨200, some [WriteProviderResult.bitswap none]⟩) (by decide)⟩

/-- C10: New returns the error "identity does not match provider" exactly when
an identity and a non-empty peer id are both supplied but the peer id does not
match the identity's public key; with no identity, an empty peer id, or a
matching pair, construction succeeds. -/
theorem new_identity_mismatch_check :
    (∀ (mk : String → Nat → Bool) (baseURL : String) (k : Nat) (peerID : String)
       (addrs : List String), peerID.length ≠ 0 → mk peerID k = false →
       New mk baseURL (some k) peerID addrs =
         Except.error "identity does not match provider") ∧
    (∀ (mk : String → Nat → Bool) (baseURL peerID : String) (addrs : List String),
       New mk baseURL none peerID addrs = Except.ok ⟨baseURL, none, peerID, addrs⟩) ∧
    (∀ (mk : String → Nat → Bool) (baseURL : String) (identity : Option Nat)
       (addrs : List String),
       New mk baseURL identity "" addrs = Except.ok ⟨baseURL, identity, "", addrs⟩) ∧
    (∀ (mk : String → Nat → Bool) (baseURL : String) (k : Nat) (peerID : String)
       (addrs : List String), mk peerID k = true →
       New mk baseURL (some k) peerID addrs = Except.ok ⟨baseURL, some k, peerID, addrs⟩) := by
  refine ⟨?_, ?_, ?_, ?_⟩
  · intro mk baseURL k peerID addrs h1 h2
    simp [New, h1, h2]
  · intro mk baseURL peerID addrs
    simp [New]
  · intro mk baseURL identity addrs
    rcases identity with _ | k <;> simp [New]
  · intro mk baseURL k peerID addrs h
    simp [New, h]

/-- C10 witness: a mismatching pair errors; a nil identity, an empty peer id,
and a matching pair all construct successfully. -/
theorem new_identity_mismatch_check_witness :
    New (fun _ _ => false) "u" (some 3) "p" []
        = Except.error "identity does not match provider" ∧
    New (fun _ _ => false) "u" none "p" [] = Except.ok ⟨"u", none, "p", []⟩ ∧
    New (fun _ _ => false) "u" (some 3) "" [] = Except.ok ⟨"u", some 3, "", []⟩ ∧
    New (fun _ _ => true) "u" (some 3) "p" [] = Except.ok ⟨"u", some 3, "p", []⟩ :=
  ⟨new_identity_mismatch_check.1 (fun _ _ => false) "u" 3 "p" [] (by decide) rfl,
   new_identity_mismatch_check.2.1 (fun _ _ => false) "u" "p" [],
   new_identity_mismatch_check.2.2.1 (fun _ _ => false) "u" (some 3) [],
   new_identity_mismatch_check.2.2.2 (fun _ _ => true) "u" 3 "p" [] rfl⟩

end Libipfs
